import Mathlib

/-!
Shallow embedding of `src/app.py` (YouTube video summarizer).

The program orchestrates external services (captions API, audio download,
speech-to-text, text generation).  Pure logic (URL parsing, prompt
construction, chunk-prefix selection, control flow of the
caption-fallback pipeline, scratch-file lifecycle) is embedded directly
from the source; each external call is a field of an explicit
environment record, so a run of the pipeline is a pure function of the
environment.
-/

namespace YtSum

/-! ### `extract_video_id` (src/app.py lines 34-51)

The Python function strips the input and applies five regexes in order
with `re.search`, returning the first match's captured group:
  1. `(?:v=|\/)([0-9A-Za-z_-]{11}).*`
  2. `(?:embed\/)([0-9A-Za-z_-]{11})`
  3. `(?:youtu\.be\/)([0-9A-Za-z_-]{11})`
  4. `(?:shorts\/)([0-9A-Za-z_-]{11})`
  5. `^([0-9A-Za-z_-]{11})$`
`re.search` scans start positions left to right and at each position
tries the alternatives in written order; the trailing `.*` of pattern 1
always matches.  We embed strings as `List Char`. -/

/-- The regex character class `[0-9A-Za-z_-]`. -/
def idChar (c : Char) : Bool :=
  c.isAlphanum || c = '_' || c = '-'

/-- Python `str.strip` whitespace (ASCII part, which covers our inputs). -/
def isPySpace (c : Char) : Bool :=
  c = ' ' || c = '\t' || c = '\n' || c = '\x0d' || c = '\x0b' || c = '\x0c'

/-- Python `str.strip`. -/
def pyStrip (l : List Char) : List Char :=
  ((l.dropWhile isPySpace).reverse.dropWhile isPySpace).reverse

/-- Match `([0-9A-Za-z_-]{11})` at the head of `l`: the first 11
characters if they are all in the class. -/
def grab11 (l : List Char) : Option (List Char) :=
  let pre := l.take 11
  if pre.length = 11 ∧ pre.all idChar then some pre else none

/-- Try pattern 1, `(?:v=|\/)([0-9A-Za-z_-]{11}).*`, anchored at the head
of `l` (alternative `v=` is tried before `/`, as written; the two
alternatives are distinguished by their first character, so no further
backtracking between them is possible). -/
def matchP1At (l : List Char) : Option (List Char) :=
  if l.take 2 = ['v', '='] then grab11 (l.drop 2)
  else if l.take 1 = ['/'] then grab11 (l.drop 1)
  else none

/-- Try `lit` as a literal prefix followed by `([0-9A-Za-z_-]{11})`,
anchored at the head of `l` (patterns 2-4). -/
def matchLitThen11 (lit : List Char) (l : List Char) : Option (List Char) :=
  if lit.isPrefixOf l then grab11 (l.drop lit.length) else none

/-- `re.search`: try the position matcher `f` at every start position,
left to right (including the empty suffix at the end). -/
def searchFrom (f : List Char → Option (List Char)) : List Char → Option (List Char)
  | [] => f []
  | c :: rest =>
    match f (c :: rest) with
    | some r => some r
    | none => searchFrom f rest

/-- Pattern 5, `^([0-9A-Za-z_-]{11})$`: the (stripped) input is exactly
11 class characters. -/
def matchP5 (l : List Char) : Option (List Char) :=
  if l.length = 11 ∧ l.all idChar then some l else none

def embedLit : List Char := ('e' :: 'm' :: 'b' :: 'e' :: 'd' :: '/' :: [])

def youtuBeLit : List Char :=
  ('y' :: 'o' :: 'u' :: 't' :: 'u' :: '.' :: 'b' :: 'e' :: '/' :: [])

def shortsLit : List Char :=
  ('s' :: 'h' :: 'o' :: 'r' :: 't' :: 's' :: '/' :: [])

/-- `extract_video_id` (lines 34-51): `some id` is a normal return,
`none` is the `ValueError("Could not extract video ID from URL")`. -/
def extract_video_id (youtube_url : List Char) : Option (List Char) :=
  match searchFrom matchP1At (pyStrip youtube_url) with
  | some r => some r
  | none =>
    match searchFrom (matchLitThen11 embedLit) (pyStrip youtube_url) with
    | some r => some r
    | none =>
      match searchFrom (matchLitThen11 youtuBeLit) (pyStrip youtube_url) with
      | some r => some r
      | none =>
        match searchFrom (matchLitThen11 shortsLit) (pyStrip youtube_url) with
        | some r => some r
        | none => matchP5 (pyStrip youtube_url)

/-- The id alphabet named by the specification (§3 plus §8's
`alphanumeric/._-`): alphanumeric and `.`, `_`, `-`.  Note `.` is NOT in
the regex class `[0-9A-Za-z_-]` of the source. -/
def specIdChar (c : Char) : Bool :=
  c.isAlphanum || c = '.' || c = '_' || c = '-'

/-- An 11-character id over the spec's alphabet. -/
def specValidId (id : List Char) : Bool :=
  decide (id.length = 11) && id.all specIdChar

/-- URL shape 1 of the spec (standard / share): `watch?v=` followed by
the id. -/
def standardUrl (id : List Char) : List Char :=
  "https://www.youtube.com/watch?v=".toList ++ id

/-- URL shape 2 of the spec: embed URL. -/
def embedUrl (id : List Char) : List Char :=
  "https://www.youtube.com/embed/".toList ++ id

/-- URL shape 3 of the spec: shortened `youtu.be` URL. -/
def shareUrl (id : List Char) : List Char :=
  "https://youtu.be/".toList ++ id

/-- URL shape 4 of the spec: shorts URL. -/
def shortsUrl (id : List Char) : List Char :=
  "https://www.youtube.com/shorts/".toList ++ id

/-- `s` is one of the five recognized URL shapes around an
11-character id over the spec's alphabet (the fifth shape is the bare
id itself). -/
def isRecognizedShape (s : List Char) : Bool :=
  ("https://www.youtube.com/watch?v=".toList.isPrefixOf s
      && specValidId (s.drop 32))
    || ("https://www.youtube.com/embed/".toList.isPrefixOf s
      && specValidId (s.drop 30))
    || ("https://youtu.be/".toList.isPrefixOf s && specValidId (s.drop 17))
    || ("https://www.youtube.com/shorts/".toList.isPrefixOf s
      && specValidId (s.drop 31))
    || specValidId s

example :
    extract_video_id "https://www.youtube.com/watch?v=dQw4w9WgXcQ".toList
      = some "dQw4w9WgXcQ".toList := by decide

example :
    extract_video_id "https://youtu.be/dQw4w9WgXcQ".toList
      = some "dQw4w9WgXcQ".toList := by decide

example :
    extract_video_id "https://www.youtube.com/embed/dQw4w9WgXcQ".toList
      = some "dQw4w9WgXcQ".toList := by decide

example :
    extract_video_id "https://www.youtube.com/shorts/dQw4w9WgXcQ".toList
      = some "dQw4w9WgXcQ".toList := by decide

example :
    extract_video_id "dQw4w9WgXcQ".toList = some "dQw4w9WgXcQ".toList := by
  decide

example : extract_video_id "not a url".toList = none := by decide

example : extract_video_id "https://youtu.be/ab.defghijk".toList = none := by
  decide

example :
    extract_video_id "https://example.com/abcdefghijk".toList
      = some "abcdefghijk".toList := by decide

/-! ### Data model of external services

`get_transcript` / `download_audio` call four external services:
the captions API (`YouTubeTranscriptApi.list_transcripts`), pytube
(stream lookup and download), ffmpeg (transcode, invoked via
`os.system`, which signals failure only through absence of the output
file), and the Groq audio/chat endpoints.  Each outcome is a field of
`Env`; a pipeline run is then a pure function of the environment. -/

/-- A caption track as exposed by the captions API: whether it is
auto-generated, its language code, and its text segments. -/
structure CaptionTrack where
  is_generated : Bool
  language_code : String
  segments : List String
deriving DecidableEq

/-- Scratch-storage paths created by `download_audio` for video id
`vid`: the raw pytube download `{vid}_temp.mp4` and the transcoded
`{vid}.mp3`. -/
inductive FsPath
  | rawAudio (vid : List Char)
  | mp3 (vid : List Char)
deriving DecidableEq

/-- `os.remove` (guarded by `os.path.exists`, so removing an absent
path is a no-op, as in the source). -/
def removeFile (p : FsPath) (fs : List FsPath) : List FsPath :=
  fs.filter (fun q => decide (q ≠ p))

/-- Outcomes of the external calls made during one pipeline run.
`listTranscripts = none` models `YouTubeTranscriptApi.list_transcripts`
raising; `transcribeResult = none` models the Groq transcription call
raising. -/
structure Env where
  listTranscripts : Option (List CaptionTrack)
  streamAvailable : Bool
  downloadOk : Bool
  transcodeOk : Bool
  transcribeResult : Option String

/-! ### `download_audio` (src/app.py lines 256-297) -/

/-- `download_audio`: extract the video id, find an audio-only stream
(raise `No audio stream found` if absent), download the raw file,
transcode via ffmpeg, delete the raw file if it exists, then return the
output path if it exists and raise `Audio conversion failed` otherwise.
The whole body sits in `try/except`, so every raise becomes `return
None`.  Result: (returned path or `None`, scratch storage after the
call). -/
def download_audio (env : Env) (youtube_url : List Char) (fs : List FsPath) :
    Option FsPath × List FsPath :=
  match extract_video_id youtube_url with
  | none => (none, fs)
  | some vid =>
    if !env.streamAvailable then (none, fs)
    else if !env.downloadOk then (none, fs)
    else
      let fs1 := FsPath.rawAudio vid :: fs
      let fs2 := if env.transcodeOk then FsPath.mp3 vid :: fs1 else fs1
      let fs3 := removeFile (FsPath.rawAudio vid) fs2
      if env.transcodeOk then (some (FsPath.mp3 vid), fs3) else (none, fs3)

/-! ### `get_transcript` (src/app.py lines 53-106) -/

/-- Observable outcome of one `get_transcript` run: the returned pair
(`none` models `return None, None`), the number of `download_audio`
invocations, the number of Groq transcription invocations, and the
final scratch storage. -/
structure RunResult where
  result : Option (String × String)
  downloads : Nat
  transcriptions : Nat
  files : List FsPath
deriving DecidableEq

/-- `transcript_list.find_manually_created_transcript` (line 63),
modelled by the captions API's contract: the first track that is not
auto-generated, if any (`none` models the raise caught by the bare
`except` on line 65). -/
def findManualTrack (tracks : List CaptionTrack) : Option CaptionTrack :=
  tracks.find? (fun t => !t.is_generated)

/-- `" ".join([part['text'] for part in transcript.fetch()])` (line 69). -/
def joinSegments (t : CaptionTrack) : String :=
  String.intercalate " " t.segments

/-- The fallback branch of `get_transcript` (lines 78-102): download the
audio; if a file was returned and exists, transcribe it (deleting the
file in `finally` whether or not transcription raises); on success
return `(transcript, 'en')`; any raise is caught and becomes `return
None, None`. -/
def fallbackAttempt (env : Env) (youtube_url : List Char) (fs : List FsPath) :
    RunResult :=
  match download_audio env youtube_url fs with
  | (some p, fs1) =>
    if p ∈ fs1 then
      match env.transcribeResult with
      | some text => ⟨some (text, "en"), 1, 1, removeFile p fs1⟩
      | none => ⟨none, 1, 1, removeFile p fs1⟩
    else ⟨none, 1, 0, fs1⟩
  | (none, fs1) => ⟨none, 1, 0, fs1⟩

/-- `get_transcript`: extract the id (a raise here is caught by the
outer `except` → `return None, None` with no fallback); list caption
tracks; prefer a manually created track, else the first track
(`next(iter(transcript_list))`, whose `StopIteration` on an empty
listing is caught by the `except` on line 74); on success return the
joined segment text with the track's language code; on any caption-side
raise run the fallback. -/
def get_transcript (env : Env) (youtube_url : List Char) (fs : List FsPath) :
    RunResult :=
  match extract_video_id youtube_url with
  | none => ⟨none, 0, 0, fs⟩
  | some _ =>
    match env.listTranscripts with
    | some tracks =>
      match (findManualTrack tracks).orElse (fun _ => tracks.head?) with
      | some t => ⟨some (joinSegments t, t.language_code), 0, 0, fs⟩
      | none => fallbackAttempt env youtube_url fs
    | none => fallbackAttempt env youtube_url fs

/-! ### `create_summary_prompt` (src/app.py lines 173-225) -/

/-- One entry of the `language_prompts` dictionary. -/
structure SectionHeaders where
  title : String
  overview : String
  key_points : String
  takeaways : String
  context : String
deriving DecidableEq

def enHeaders : SectionHeaders :=
  ⟨"TITLE", "OVERVIEW", "KEY POINTS", "MAIN TAKEAWAYS",
    "CONTEXT & IMPLICATIONS"⟩

def deHeaders : SectionHeaders :=
  ⟨"TITEL", "ÜBERBLICK", "KERNPUNKTE", "HAUPTERKENNTNISSE",
    "KONTEXT & AUSWIRKUNGEN"⟩

/-- The `language_prompts` dictionary (lines 175-191): only `'en'` and
`'de'` are present. -/
def language_prompts : List (String × SectionHeaders) :=
  [("en", enHeaders), ("de", deHeaders)]

/-- `language_prompts.get(target_language, language_prompts['en'])`
(line 194). -/
def promptsFor (target_language : String) : SectionHeaders :=
  (language_prompts.lookup target_language).getD enHeaders

/-- The `system_prompt` f-string (lines 196-198). -/
def buildSystemPrompt (target_language : String) : String :=
  "You are an expert content analyst and summarizer. Create a comprehensive \n    summary in "
    ++ target_language
    ++ ". Ensure all content is fully translated and culturally adapted \n    to the target language."

/-- The `user_prompt` f-string (lines 200-223), with the chosen section
headers interpolated. -/
def buildUserPrompt (p : SectionHeaders) (text target_language : String) :
    String :=
  "Please provide a detailed summary of the following content in "
    ++ target_language
    ++ ". \n    Structure your response as follows:\n\n    🎯 "
    ++ p.title
    ++ ": Create a descriptive title\n\n    📝 "
    ++ p.overview
    ++ " (2-3 sentences):\n    - Provide a brief context and main purpose\n\n    🔑 "
    ++ p.key_points
    ++ ":\n    - Extract and explain the main arguments\n    - Include specific examples\n    - Highlight unique perspectives\n\n    💡 "
    ++ p.takeaways
    ++ ":\n    - List 3-5 practical insights\n    - Explain their significance\n\n    🔄 "
    ++ p.context
    ++ ":\n    - Broader context discussion\n    - Future implications\n\n    Text to summarize: "
    ++ text
    ++ "\n\n    Ensure the summary is comprehensive enough for someone who hasn't seen the original content."

/-- `create_summary_prompt` (lines 173-225). -/
def create_summary_prompt (text target_language : String) : String × String :=
  (buildSystemPrompt target_language,
    buildUserPrompt (promptsFor target_language) text target_language)

/-! ### `summarize_with_langchain_and_openai` (src/app.py lines 227-254) -/

/-- Environment of the summarizer: the langchain
`RecursiveCharacterTextSplitter.split_text` (a pure function of chunk
size, overlap and input text, supplied by the external library) and the
outcome of the Groq chat-completion call (`none` models a raise, caught
on line 252 → `return None`). -/
structure GenEnv where
  splitText : Nat → Nat → String → List String
  generationResult : Option String

/-- Observable outcome of one summarizer call: the text passed to the
prompt builder, the two prompts sent to the backend, the number of
chat-completion invocations, and the returned summary (`none` on
backend error). -/
structure SummarizeResult where
  text_to_summarize : String
  system_prompt : String
  user_prompt : String
  backendCalls : Nat
  output : Option String
deriving DecidableEq

/-- `summarize_with_langchain_and_openai` on a non-`None` transcript:
split with chunk_size 2000 / chunk_overlap 200, keep
`" ".join(texts[:4])`, build the prompts, invoke the backend once. -/
def summarize_with_langchain_and_openai (genv : GenEnv)
    (transcript : String) (language_code : String) : SummarizeResult :=
  let texts := genv.splitText 2000 200 transcript
  let text_to_summarize := String.intercalate " " (texts.take 4)
  let prompts := create_summary_prompt text_to_summarize language_code
  ⟨text_to_summarize, prompts.1, prompts.2, 1, genv.generationResult⟩

/-- The summarizer as called by `main`, which passes the raw first
component of `get_transcript`'s result and so may pass `None`:
`split_text(None)` raises (`AttributeError` inside langchain) before
any backend call, and nothing catches it inside the summarizer
(`Except.error ()`). -/
def summarizeOpt (genv : GenEnv) (transcript : Option String)
    (language_code : String) : Except Unit SummarizeResult :=
  match transcript with
  | none => .error ()
  | some t => .ok (summarize_with_langchain_and_openai genv t language_code)

/-! ### `main` (src/app.py lines 299-350) -/

/-- What the user observes from one button press: how many times the
generation backend was invoked, and the summary handed to
`st.markdown` (`none` when the line is never reached because an
exception was caught by `main`'s `except`). -/
structure MainResult where
  generationCalls : Nat
  shownSummary : Option String
deriving DecidableEq

/-- The `Generate Summary` handler (lines 323-348): run
`get_transcript`, pass its (possibly `None`) transcript straight to the
summarizer, and `st.markdown` the result; any exception lands in the
`except` on line 347, after which no summary is shown. -/
def mainRun (env : Env) (genv : GenEnv) (link : List Char)
    (target_language_code : String) : MainResult :=
  let r := get_transcript env link []
  match summarizeOpt genv (r.result.map Prod.fst) target_language_code with
  | .error _ => ⟨0, none⟩
  | .ok s => ⟨s.backendCalls, s.output⟩

/-! ### Helper lemmas about the URL matcher -/

theorem dropWhile_isPySpace_eq_self {l : List Char}
    (h : ∀ c ∈ l, isPySpace c = false) : l.dropWhile isPySpace = l := by
  cases l with
  | nil => rfl
  | cons a t => simp [List.dropWhile_cons, h a (by simp)]

theorem pyStrip_no_space {l : List Char} (h : ∀ c ∈ l, isPySpace c = false) :
    pyStrip l = l := by
  unfold pyStrip
  rw [dropWhile_isPySpace_eq_self h,
    dropWhile_isPySpace_eq_self
      (by intro c hc; exact h c (List.mem_reverse.mp hc)),
    List.reverse_reverse]

theorem isPySpace_of_idChar {c : Char} (h : idChar c = true) :
    isPySpace c = false := by
  rcases Bool.eq_false_or_eq_true (isPySpace c) with ht | hf
  swap
  · exact hf
  · exfalso
    simp [isPySpace] at ht
    rcases ht with ((((rfl | rfl) | rfl) | rfl) | rfl) | rfl <;>
      simp [idChar] at h

theorem searchFrom_eq_none {f : List Char → Option (List Char)}
    {l : List Char} (h : ∀ l', l' <:+ l → f l' = none) :
    searchFrom f l = none := by
  induction l with
  | nil => exact h [] (by simp)
  | cons a t ih =>
    have h0 := h (a :: t) (List.suffix_refl _)
    simp [searchFrom, h0]
    exact ih (fun l' hl' => h l' (hl'.trans (List.suffix_cons a t)))

theorem matchP1At_none_of_all {l : List Char}
    (h : ∀ c ∈ l, idChar c = true) : matchP1At l = none := by
  match l with
  | [] => rfl
  | [a] =>
    have ha := h a (by simp)
    have : a ≠ '/' := by rintro rfl; simp [idChar] at ha
    simp [matchP1At, this]
  | a :: b :: t =>
    have hb := h b (by simp)
    have h1 : b ≠ '=' := by rintro rfl; simp [idChar] at hb
    have ha := h a (by simp)
    have h2 : a ≠ '/' := by rintro rfl; simp [idChar] at ha
    simp [matchP1At, h1, h2]

theorem matchLitThen11_none_of_all {lit l : List Char} (c0 : Char)
    (hc0 : c0 ∈ lit) (hbad : idChar c0 = false)
    (h : ∀ c ∈ l, idChar c = true) : matchLitThen11 lit l = none := by
  unfold matchLitThen11
  have hpf : lit.isPrefixOf l = false := by
    rcases Bool.eq_false_or_eq_true (lit.isPrefixOf l) with ht | hf
    · exfalso
      have hpre : lit <+: l := List.isPrefixOf_iff_prefix.mp ht
      have := h c0 (hpre.subset hc0)
      rw [this] at hbad
      simp at hbad
    · exact hf
  simp [hpf]

theorem no_space_append {t id : List Char} (ht : ∀ c ∈ t, isPySpace c = false)
    (hall : id.all idChar = true) : ∀ c ∈ t ++ id, isPySpace c = false := by
  intro c hc
  rcases List.mem_append.mp hc with h | h
  · exact ht c h
  · exact isPySpace_of_idChar (List.all_eq_true.mp hall c h)

theorem search_standard (id : List Char) (hlen : id.length = 11)
    (hall : id.all idChar = true) :
    searchFrom matchP1At ("https://www.youtube.com/watch?v=".toList ++ id)
      = some id := by
  have htake : id.take 11 = id := by rw [← hlen]; exact List.take_length id
  simp [searchFrom, matchP1At, grab11, htake, hlen, hall, idChar]

theorem search_share (id : List Char) (hlen : id.length = 11)
    (hall : id.all idChar = true) :
    searchFrom matchP1At ("https://youtu.be/".toList ++ id) = some id := by
  have htake : id.take 11 = id := by rw [← hlen]; exact List.take_length id
  simp [searchFrom, matchP1At, grab11, htake, hlen, hall, idChar]

theorem search_embed (id : List Char) (hlen : id.length = 11)
    (hall : id.all idChar = true) :
    searchFrom matchP1At ("https://www.youtube.com/embed/".toList ++ id)
      = some id := by
  have htake : id.take 11 = id := by rw [← hlen]; exact List.take_length id
  simp [searchFrom, matchP1At, grab11, htake, hlen, hall, idChar]

theorem search_shorts (id : List Char) (hlen : id.length = 11)
    (hall : id.all idChar = true) :
    searchFrom matchP1At ("https://www.youtube.com/shorts/".toList ++ id)
      = some id := by
  have htake : id.take 11 = id := by rw [← hlen]; exact List.take_length id
  simp [searchFrom, matchP1At, grab11, htake, hlen, hall, idChar]

theorem extract_standard (id : List Char) (hlen : id.length = 11)
    (hall : id.all idChar = true) :
    extract_video_id (standardUrl id) = some id := by
  have hns := no_space_append
    (t := "https://www.youtube.com/watch?v=".toList) (by decide) hall
  unfold extract_video_id standardUrl
  rw [pyStrip_no_space hns, search_standard id hlen hall]

theorem extract_share (id : List Char) (hlen : id.length = 11)
    (hall : id.all idChar = true) :
    extract_video_id (shareUrl id) = some id := by
  have hns := no_space_append (t := "https://youtu.be/".toList)
    (by decide) hall
  unfold extract_video_id shareUrl
  rw [pyStrip_no_space hns, search_share id hlen hall]

theorem extract_embed (id : List Char) (hlen : id.length = 11)
    (hall : id.all idChar = true) :
    extract_video_id (embedUrl id) = some id := by
  have hns := no_space_append
    (t := "https://www.youtube.com/embed/".toList) (by decide) hall
  unfold extract_video_id embedUrl
  rw [pyStrip_no_space hns, search_embed id hlen hall]

theorem extract_shorts (id : List Char) (hlen : id.length = 11)
    (hall : id.all idChar = true) :
    extract_video_id (shortsUrl id) = some id := by
  have hns := no_space_append
    (t := "https://www.youtube.com/shorts/".toList) (by decide) hall
  unfold extract_video_id shortsUrl
  rw [pyStrip_no_space hns, search_shorts id hlen hall]

theorem extract_bare (id : List Char) (hlen : id.length = 11)
    (hall : id.all idChar = true) : extract_video_id id = some id := by
  have hmem : ∀ c ∈ id, idChar c = true := fun c hc =>
    List.all_eq_true.mp hall c hc
  have hns : ∀ c ∈ id, isPySpace c = false := fun c hc =>
    isPySpace_of_idChar (hmem c hc)
  have hsub : ∀ (l' : List Char), l' <:+ id → ∀ c ∈ l', idChar c = true :=
    fun l' hl' c hc => hmem c (hl'.subset hc)
  unfold extract_video_id
  rw [pyStrip_no_space hns,
    searchFrom_eq_none (fun l' hl' => matchP1At_none_of_all (hsub l' hl')),
    searchFrom_eq_none (fun l' hl' =>
      matchLitThen11_none_of_all '/' (by decide) (by decide) (hsub l' hl')),
    searchFrom_eq_none (fun l' hl' =>
      matchLitThen11_none_of_all '.' (by decide) (by decide) (hsub l' hl')),
    searchFrom_eq_none (fun l' hl' =>
      matchLitThen11_none_of_all '/' (by decide) (by decide) (hsub l' hl'))]
  simp [matchP5, hlen, hall]

/-! ### Helper lemmas about the pipeline -/

theorem download_audio_mem {env : Env} {url : List Char} {fs : List FsPath}
    {p : FsPath} {fs1 : List FsPath}
    (h : download_audio env url fs = (some p, fs1)) : p ∈ fs1 := by
  unfold download_audio at h
  cases hx : extract_video_id url with
  | none => rw [hx] at h; simp at h
  | some vid =>
    rw [hx] at h
    by_cases hs : env.streamAvailable
    · by_cases hd : env.downloadOk
      · by_cases htc : env.transcodeOk
        · simp [hs, hd, htc] at h
          obtain ⟨rfl, rfl⟩ := h
          simp [removeFile, List.mem_filter]
        · simp [hs, hd, htc] at h
      · simp [hs, hd] at h
    · simp [hs] at h

theorem fallbackAttempt_downloads (env : Env) (url : List Char)
    (fs : List FsPath) : (fallbackAttempt env url fs).downloads = 1 := by
  unfold fallbackAttempt
  rcases h : download_audio env url fs with ⟨o, fs1⟩
  cases o with
  | none => simp
  | some p =>
    by_cases hp : p ∈ fs1
    · cases env.transcribeResult <;> simp [hp]
    · simp [hp]

theorem fallbackAttempt_transcriptions_of_download {env : Env}
    {url : List Char} {fs : List FsPath} {p : FsPath} {fs1 : List FsPath}
    (h : download_audio env url fs = (some p, fs1)) :
    (fallbackAttempt env url fs).transcriptions = 1 := by
  have hp : p ∈ fs1 := download_audio_mem h
  unfold fallbackAttempt
  rw [h]
  cases env.transcribeResult <;> simp [hp]

theorem fallbackAttempt_clean (env : Env) (url : List Char) :
    (fallbackAttempt env url []).files = [] := by
  unfold fallbackAttempt download_audio
  cases hx : extract_video_id url with
  | none => rfl
  | some vid =>
    by_cases hs : env.streamAvailable
    · by_cases hd : env.downloadOk
      · by_cases htc : env.transcodeOk
        · cases env.transcribeResult <;>
            simp [hs, hd, htc, removeFile, List.filter]
        · simp [hs, hd, htc, removeFile, List.filter]
      · simp [hs, hd]
    · simp [hs]

/-! ### Claim theorems -/

/-- **C3** (amended): for every eleven-character string over the
alphabet actually accepted by the source's regex class `[0-9A-Za-z_-]`
(alphanumeric plus `_` and `-`; the spec's additional `.` is not in the
class), embedded in any of the five recognized URL shapes,
`extract_video_id` returns exactly that id; and whichever pattern in
the fixed priority order matches first determines the result. -/
theorem extract_video_id_five_shapes (id : List Char) (hlen : id.length = 11)
    (hall : id.all idChar = true) :
    extract_video_id (standardUrl id) = some id ∧
    extract_video_id (embedUrl id) = some id ∧
    extract_video_id (shareUrl id) = some id ∧
    extract_video_id (shortsUrl id) = some id ∧
    extract_video_id id = some id ∧
    (∀ url r, searchFrom matchP1At (pyStrip url) = some r →
      extract_video_id url = some r) ∧
    (∀ url r, searchFrom matchP1At (pyStrip url) = none →
      searchFrom (matchLitThen11 embedLit) (pyStrip url) = some r →
      extract_video_id url = some r) ∧
    (∀ url r, searchFrom matchP1At (pyStrip url) = none →
      searchFrom (matchLitThen11 embedLit) (pyStrip url) = none →
      searchFrom (matchLitThen11 youtuBeLit) (pyStrip url) = some r →
      extract_video_id url = some r) ∧
    (∀ url r, searchFrom matchP1At (pyStrip url) = none →
      searchFrom (matchLitThen11 embedLit) (pyStrip url) = none →
      searchFrom (matchLitThen11 youtuBeLit) (pyStrip url) = none →
      searchFrom (matchLitThen11 shortsLit) (pyStrip url) = some r →
      extract_video_id url = some r) := by
  refine ⟨extract_standard id hlen hall, extract_embed id hlen hall,
    extract_share id hlen hall, extract_shorts id hlen hall,
    extract_bare id hlen hall, ?_, ?_, ?_, ?_⟩
  · intro url r h
    unfold extract_video_id
    rw [h]
  · intro url r h1 h2
    unfold extract_video_id
    rw [h1, h2]
  · intro url r h1 h2 h3
    unfold extract_video_id
    rw [h1, h2, h3]
  · intro url r h1 h2 h3 h4
    unfold extract_video_id
    rw [h1, h2, h3, h4]

/-- **C3** witness: the amended theorem evaluated at the concrete id
`dQw4w9WgXcQ`. -/
theorem extract_video_id_five_shapes_witness :
    extract_video_id (standardUrl "dQw4w9WgXcQ".toList)
      = some "dQw4w9WgXcQ".toList :=
  (extract_video_id_five_shapes "dQw4w9WgXcQ".toList (by decide)
    (by decide)).1

/-- **C3** counterexample: `ab.defghijk` is an eleven-character string
over the spec's claimed alphabet (alphanumeric plus `.`, `_`, `-`), yet
embedded in the share shape — or taken as a bare id —
`extract_video_id` raises instead of returning it, because `.` is not
in the source's regex class. -/
theorem extract_video_id_dot_id_counterexample :
    specValidId "ab.defghijk".toList = true ∧
    extract_video_id (shareUrl "ab.defghijk".toList) = none ∧
    extract_video_id "ab.defghijk".toList = none := by decide

/-- **C8**: whenever none of the five patterns finds an id in the
(stripped) input, `extract_video_id` raises the invalid-URL
`ValueError` (modelled as `none`) rather than returning a value. -/
theorem extract_video_id_invalid_url (url : List Char)
    (h1 : searchFrom matchP1At (pyStrip url) = none)
    (h2 : searchFrom (matchLitThen11 embedLit) (pyStrip url) = none)
    (h3 : searchFrom (matchLitThen11 youtuBeLit) (pyStrip url) = none)
    (h4 : searchFrom (matchLitThen11 shortsLit) (pyStrip url) = none)
    (h5 : matchP5 (pyStrip url) = none) :
    extract_video_id url = none := by
  unfold extract_video_id
  rw [h1, h2, h3, h4, h5]

/-- **C8** witness: the malformed input `not a url`. -/
theorem extract_video_id_invalid_url_witness :
    extract_video_id "not a url".toList = none :=
  extract_video_id_invalid_url "not a url".toList (by decide) (by decide)
    (by decide) (by decide) (by decide)

/-- **C9** (implicit): the patterns are unanchored substring searches,
so an 11-character run after a `/` on an unrelated domain is returned
as a video id even though the input is none of the five recognized URL
shapes; `extract_video_id` does not raise the invalid-URL error
there. -/
theorem extract_video_id_unanchored_accepts_foreign_url :
    isRecognizedShape "https://example.com/abcdefghijk".toList = false ∧
    extract_video_id "https://example.com/abcdefghijk".toList
      = some "abcdefghijk".toList := by decide

/-- **C1**: when the caption-listing call raises, `get_transcript`
invokes `download_audio` exactly once and, when that download returns a
file, invokes the speech-to-text transcription exactly once; when
caption fetching succeeds (the listing returns and a track is
selected), neither is invoked and the pipeline returns the joined
caption text with the track's language code. -/
theorem get_transcript_fallback_control_flow (env : Env)
    (url vid : List Char) (hx : extract_video_id url = some vid) :
    (env.listTranscripts = none →
      (get_transcript env url []).downloads = 1 ∧
      (∀ p fs1, download_audio env url [] = (some p, fs1) →
        (get_transcript env url []).transcriptions = 1)) ∧
    (∀ tracks t, env.listTranscripts = some tracks →
      (findManualTrack tracks).orElse (fun _ => tracks.head?) = some t →
      (get_transcript env url []).result
          = some (joinSegments t, t.language_code) ∧
      (get_transcript env url []).downloads = 0 ∧
      (get_transcript env url []).transcriptions = 0) := by
  constructor
  · intro hl
    constructor
    · simp only [get_transcript, hx, hl]
      exact fallbackAttempt_downloads env url []
    · intro p fs1 hd
      simp only [get_transcript, hx, hl]
      exact fallbackAttempt_transcriptions_of_download hd
  · intro tracks t hl hsel
    simp [get_transcript, hx, hl, hsel]

/-- **C1** witness: a listing failure with a successful download and
transcription invokes each fallback step once; a caption success
returns the joined manual-track text without any fallback step. -/
theorem get_transcript_fallback_control_flow_witness :
    ((get_transcript ⟨none, true, true, true, some "hello"⟩
        "dQw4w9WgXcQ".toList []).downloads = 1 ∧
      (get_transcript ⟨none, true, true, true, some "hello"⟩
        "dQw4w9WgXcQ".toList []).transcriptions = 1) ∧
    (get_transcript
        ⟨some [⟨true, "fr", ["x"]⟩, ⟨false, "de", ["b", "c"]⟩],
          false, false, false, none⟩
        "https://youtu.be/dQw4w9WgXcQ".toList []).result
      = some ("b c", "de") :=
  ⟨⟨((get_transcript_fallback_control_flow
        ⟨none, true, true, true, some "hello"⟩ "dQw4w9WgXcQ".toList
        "dQw4w9WgXcQ".toList (by decide)).1 rfl).1,
    ((get_transcript_fallback_control_flow
        ⟨none, true, true, true, some "hello"⟩ "dQw4w9WgXcQ".toList
        "dQw4w9WgXcQ".toList (by decide)).1 rfl).2
      (FsPath.mp3 "dQw4w9WgXcQ".toList)
      [FsPath.mp3 "dQw4w9WgXcQ".toList] (by decide)⟩,
   ((get_transcript_fallback_control_flow
        ⟨some [⟨true, "fr", ["x"]⟩, ⟨false, "de", ["b", "c"]⟩],
          false, false, false, none⟩
        "https://youtu.be/dQw4w9WgXcQ".toList "dQw4w9WgXcQ".toList
        (by decide)).2
      [⟨true, "fr", ["x"]⟩, ⟨false, "de", ["b", "c"]⟩]
      ⟨false, "de", ["b", "c"]⟩ rfl (by decide)).1⟩

/-- **C2**: no intermediate audio artifact outlives a pipeline run:
starting from empty scratch storage, after `get_transcript` returns —
on every path, including failed transcoding and failed transcription —
scratch storage is empty again (the raw `_temp.mp4` download is deleted
inside `download_audio` on both transcode outcomes, and the transcoded
`.mp3` handed to the transcriber is deleted in the pipeline's `finally`
on both transcription outcomes). -/
theorem get_transcript_no_artifact_outlives_run (env : Env)
    (url : List Char) : (get_transcript env url []).files = [] := by
  unfold get_transcript
  cases hx : extract_video_id url with
  | none => rfl
  | some vid =>
    cases hl : env.listTranscripts with
    | some tracks =>
      cases hc : (findManualTrack tracks).orElse (fun _ => tracks.head?) with
      | some t =>
        simp only [hc]
      | none =>
        simp only [hc]
        exact fallbackAttempt_clean env url
    | none => exact fallbackAttempt_clean env url

/-- **C4**: when the caption listing succeeds, a manually created track
(if one exists) is the one whose joined text and language code are
returned — and that track is not auto-generated; when no manual track
exists, the first listed track is returned. -/
theorem get_transcript_caption_track_selection (env : Env)
    (url vid : List Char) (tracks : List CaptionTrack)
    (hx : extract_video_id url = some vid)
    (hl : env.listTranscripts = some tracks) :
    (∀ t, findManualTrack tracks = some t →
      (get_transcript env url []).result
          = some (joinSegments t, t.language_code) ∧
      t.is_generated = false) ∧
    (findManualTrack tracks = none →
      ∀ t0 rest, tracks = t0 :: rest →
        (get_transcript env url []).result
          = some (joinSegments t0, t0.language_code)) := by
  constructor
  · intro t ht
    have hgen : t.is_generated = false := by
      have := List.find?_some ht
      simpa using this
    refine ⟨?_, hgen⟩
    simp [get_transcript, hx, hl, ht, Option.orElse]
  · intro hm t0 rest hts
    subst hts
    simp [get_transcript, hx, hl, hm, Option.orElse]

/-- **C4** witness: a manual track behind an auto-generated one is
selected; with only auto-generated tracks the first one is selected. -/
theorem get_transcript_caption_track_selection_witness :
    (get_transcript
        ⟨some [⟨true, "en", ["a1"]⟩, ⟨false, "pt", ["m1", "m2"]⟩],
          false, false, false, none⟩
        "dQw4w9WgXcQ".toList []).result = some ("m1 m2", "pt") ∧
    (get_transcript
        ⟨some [⟨true, "ja", ["g1", "g2"]⟩, ⟨true, "ko", ["h"]⟩],
          false, false, false, none⟩
        "dQw4w9WgXcQ".toList []).result = some ("g1 g2", "ja") :=
  ⟨((get_transcript_caption_track_selection
      ⟨some [⟨true, "en", ["a1"]⟩, ⟨false, "pt", ["m1", "m2"]⟩],
        false, false, false, none⟩
      "dQw4w9WgXcQ".toList "dQw4w9WgXcQ".toList
      [⟨true, "en", ["a1"]⟩, ⟨false, "pt", ["m1", "m2"]⟩]
      (by decide) rfl).1 ⟨false, "pt", ["m1", "m2"]⟩ (by decide)).1,
   (get_transcript_caption_track_selection
      ⟨some [⟨true, "ja", ["g1", "g2"]⟩, ⟨true, "ko", ["h"]⟩],
        false, false, false, none⟩
      "dQw4w9WgXcQ".toList "dQw4w9WgXcQ".toList
      [⟨true, "ja", ["g1", "g2"]⟩, ⟨true, "ko", ["h"]⟩]
      (by decide) rfl).2 (by decide) ⟨true, "ja", ["g1", "g2"]⟩
      [⟨true, "ko", ["h"]⟩] rfl⟩

/-- **C5**: when transcript acquisition fails entirely
(`get_transcript` returns `None, None`), the generation backend is
never invoked and no summary output is shown: `main` passes the `None`
transcript to the summarizer, whose `split_text(None)` raises before
the backend call, and `main`'s `except` swallows the exception before
`st.markdown` is reached. -/
theorem main_no_summary_without_transcript (env : Env) (genv : GenEnv)
    (link : List Char) (lang : String)
    (h : (get_transcript env link []).result = none) :
    (mainRun env genv link lang).generationCalls = 0 ∧
    (mainRun env genv link lang).shownSummary = none := by
  simp [mainRun, summarizeOpt, h]

/-- **C5** witness: with an unextractable URL the pipeline yields no
transcript and `main` invokes no generation and shows nothing. -/
theorem main_no_summary_without_transcript_witness :
    (mainRun ⟨none, false, false, false, none⟩
      ⟨fun _ _ _ => [], none⟩ "x".toList "en").generationCalls = 0 ∧
    (mainRun ⟨none, false, false, false, none⟩
      ⟨fun _ _ _ => [], none⟩ "x".toList "en").shownSummary = none :=
  main_no_summary_without_transcript ⟨none, false, false, false, none⟩
    ⟨fun _ _ _ => [], none⟩ "x".toList "en" (by decide)

/-- **C6**: for every transcript, the summarizer splits it with the
fixed configuration (chunk size 2000, overlap 200) and the text passed
to the generation backend is the join of at most the first 4 chunks of
that split. -/
theorem summarize_bounded_chunk_prefix (genv : GenEnv)
    (transcript language_code : String) :
    (summarize_with_langchain_and_openai genv transcript
        language_code).text_to_summarize
      = String.intercalate " "
          ((genv.splitText 2000 200 transcript).take 4) ∧
    ((genv.splitText 2000 200 transcript).take 4).length ≤ 4 ∧
    (summarize_with_langchain_and_openai genv transcript
        language_code).user_prompt
      = buildUserPrompt (promptsFor language_code)
          (String.intercalate " "
            ((genv.splitText 2000 200 transcript).take 4))
          language_code := by
  refine ⟨rfl, ?_, rfl⟩
  exact List.length_take_le 4 (genv.splitText 2000 200 transcript)

/-- **C7**: the prompt built by `create_summary_prompt` interpolates
the section-header vocabulary of the target language when that code is
in the built-in mapping, and the English vocabulary when it is not. -/
theorem create_summary_prompt_header_selection (text lang : String) :
    (∀ h, language_prompts.lookup lang = some h →
      create_summary_prompt text lang
        = (buildSystemPrompt lang, buildUserPrompt h text lang)) ∧
    (language_prompts.lookup lang = none →
      create_summary_prompt text lang
        = (buildSystemPrompt lang, buildUserPrompt enHeaders text lang)) := by
  constructor
  · intro h hh
    simp [create_summary_prompt, promptsFor, hh]
  · intro hh
    simp [create_summary_prompt, promptsFor, hh]

/-- **C7** witness: a German request uses the German headers; a Spanish
request (absent from the mapping) uses the English headers. -/
theorem create_summary_prompt_header_selection_witness :
    create_summary_prompt "t" "de"
      = (buildSystemPrompt "de", buildUserPrompt deHeaders "t" "de") ∧
    create_summary_prompt "t" "es"
      = (buildSystemPrompt "es", buildUserPrompt enHeaders "t" "es") :=
  ⟨(create_summary_prompt_header_selection "t" "de").1 deHeaders (by decide),
   (create_summary_prompt_header_selection "t" "es").2 (by decide)⟩

/-- **C10**: `download_audio` catches every failure of the acquisition
(no audio-only stream, download error, transcoded output absent) and
returns `None` instead of propagating an exception — the embedding is a
total function whose only failure signal is `none`; and when the
listing has failed, `get_transcript` treats a `None` download result as
fallback failure, returning `None, None` without invoking the
transcriber. -/
theorem download_audio_failure_modes (env : Env) (url vid : List Char)
    (fs : List FsPath) (hx : extract_video_id url = some vid) :
    (env.streamAvailable = false → (download_audio env url fs).1 = none) ∧
    (env.downloadOk = false → (download_audio env url fs).1 = none) ∧
    (env.transcodeOk = false → (download_audio env url fs).1 = none) ∧
    ((download_audio env url fs).1 = none → env.listTranscripts = none →
      (get_transcript env url fs).result = none ∧
      (get_transcript env url fs).transcriptions = 0) := by
  refine ⟨?_, ?_, ?_, ?_⟩
  · intro hs
    simp [download_audio, hx, hs]
  · intro hd
    by_cases hs : env.streamAvailable <;> simp [download_audio, hx, hs, hd]
  · intro htc
    by_cases hs : env.streamAvailable
    · by_cases hd : env.downloadOk <;> simp [download_audio, hx, hs, hd, htc]
    · simp [download_audio, hx, hs]
  · intro hdn hl
    have hda : download_audio env url fs
        = (none, (download_audio env url fs).2) := by
      rcases h : download_audio env url fs with ⟨o, fs1⟩
      rw [h] at hdn
      simp at hdn
      rw [hdn]
    simp only [get_transcript, hx, hl, fallbackAttempt]
    rw [hda]
    exact ⟨rfl, rfl⟩

/-- **C10** witness: with no audio-only stream offered and a failed
listing, `download_audio` returns `None` and the pipeline returns
`None, None` without a transcription call. -/
theorem download_audio_failure_modes_witness :
    (download_audio ⟨none, false, true, true, some "s"⟩
      "dQw4w9WgXcQ".toList []).1 = none ∧
    (get_transcript ⟨none, false, true, true, some "s"⟩
      "dQw4w9WgXcQ".toList []).result = none ∧
    (get_transcript ⟨none, false, true, true, some "s"⟩
      "dQw4w9WgXcQ".toList []).transcriptions = 0 :=
  ⟨(download_audio_failure_modes ⟨none, false, true, true, some "s"⟩
      "dQw4w9WgXcQ".toList "dQw4w9WgXcQ".toList [] (by decide)).1 rfl,
   ((download_audio_failure_modes ⟨none, false, true, true, some "s"⟩
      "dQw4w9WgXcQ".toList "dQw4w9WgXcQ".toList [] (by decide)).2.2.2
      ((download_audio_failure_modes ⟨none, false, true, true, some "s"⟩
        "dQw4w9WgXcQ".toList "dQw4w9WgXcQ".toList [] (by decide)).1 rfl)
      rfl).1,
   ((download_audio_failure_modes ⟨none, false, true, true, some "s"⟩
      "dQw4w9WgXcQ".toList "dQw4w9WgXcQ".toList [] (by decide)).2.2.2
      ((download_audio_failure_modes ⟨none, false, true, true, some "s"⟩
        "dQw4w9WgXcQ".toList "dQw4w9WgXcQ".toList [] (by decide)).1 rfl)
      rfl).2⟩

end YtSum
